import Mathlib

/-!
# Travellk: the request handlers of `server.js`

A shallow embedding of the two POST handlers (`/api/book`, `/api/register`) and of the
fallback error middleware.  The connection pool and the mail transporter are external
capabilities: they are parameters of the handlers, each a state transformer that either
resolves or rejects.  A handler is a computation over a world made of the store state, the
mail transport state and the trace of observable effects (store calls, mail sends, console
records, HTTP responses) in the order in which the code performs them.
-/

namespace Travellk

/-! ## JavaScript values -/

/-- A JavaScript number, an IEEE double, given by the two things the handlers observe of
it: whether `ToBoolean` makes it false (it is `0`, `-0` or `NaN`) and the text
`Number::toString` gives it (`"2"`, `"0.5"`, `"1e+21"`). -/
structure JSNumber where
  isZeroOrNaN : Bool
  text : String
  deriving DecidableEq, Repr

/-- The number `0`. -/
def zero : JSNumber :=
  { isZeroOrNaN := true, text := "0" }

/-- A value of a field of the decoded request body: absent (`undefined`) or any JSON value,
`null`, a boolean, a number, a string, an array or an object with its own properties in
source order. -/
inductive JSValue where
  | undefined
  | null
  | bool (b : Bool)
  | num (x : JSNumber)
  | str (s : String)
  | arr (items : List JSValue)
  | obj (fields : List (String × JSValue))

/-- A thrown JavaScript error: its class name, the `code` property that Node and the
database driver attach to their errors, and its `message`. -/
structure JSError where
  name : String
  code : Option String
  message : String
  deriving DecidableEq, Repr

/-- The JavaScript expression `new Error(message)`. -/
def newError (message : String) : JSError :=
  { name := "Error", code := none, message := message }

/-- The error of `ToPrimitive` on an object none of whose conversion methods gives a
primitive. -/
def cannotConvert : JSError :=
  { name := "TypeError", code := none, message := "Cannot convert object to primitive value" }

/-- JavaScript `ToBoolean`, the test behind `!v`: `undefined`, `null`, `false`, `0`, `NaN`
and the empty string are falsy, everything else is truthy, every array and object
included. -/
def truthy : JSValue → Bool
  | .undefined => false
  | .null => false
  | .bool b => b
  | .num x => !x.isZeroOrNaN
  | .str s => s != ""
  | .arr _ => true
  | .obj _ => true

/-- Whether an object has an own property named `key`. -/
def hasOwnProperty (key : String) : List (String × JSValue) → Bool
  | [] => false
  | (k, _) :: rest => k == key || hasOwnProperty key rest

/-- The step of `Array.prototype.join` that puts the separator `,` between the text of an
element and the text of the elements after it; the first conversion that throws wins. -/
def joinTexts : Except JSError String → Except JSError String → Except JSError String
  | .error e, _ => .error e
  | .ok _, .error e => .error e
  | .ok a, .ok b => .ok (a ++ "," ++ b)

mutual
/-- JavaScript `ToString`, the conversion a template literal applies to `${v}`.  An array
is joined; an object of the request body has data properties only, so an own `toString`
property is not callable and the conversion throws, and without one the inherited
`Object.prototype.toString` answers `[object Object]`. -/
def toStr : JSValue → Except JSError String
  | .undefined => .ok "undefined"
  | .null => .ok "null"
  | .bool true => .ok "true"
  | .bool false => .ok "false"
  | .num x => .ok x.text
  | .str s => .ok s
  | .arr items => joinItems items
  | .obj fields =>
    if hasOwnProperty "toString" fields then .error cannotConvert else .ok "[object Object]"
termination_by structural v => v
/-- JavaScript `Array.prototype.join` with the separator `,`: an element that is `undefined`
or `null` gives the empty text, any other its `ToString`. -/
def joinItems : List JSValue → Except JSError String
  | [] => .ok ""
  | [.undefined] => .ok ""
  | [.null] => .ok ""
  | [x] => toStr x
  | .undefined :: rest => joinTexts (.ok "") (joinItems rest)
  | .null :: rest => joinTexts (.ok "") (joinItems rest)
  | x :: rest => joinTexts (toStr x) (joinItems rest)
termination_by structural items => items
end

/-- Whether `pat` occurs in `s` starting at its first character or later. -/
def includesChars (pat : List Char) : List Char → Bool
  | [] => pat.isEmpty
  | c :: cs => pat.isPrefixOf (c :: cs) || includesChars pat cs

/-- JavaScript `String.prototype.includes`: `s.includes(pat)`. -/
def includes (s pat : String) : Bool :=
  includesChars pat.data s.data

/-! ## Capabilities, effects and the world -/

/-- What `pool.execute` resolves with for an INSERT; the handlers read `insertId` only. -/
structure ResultSetHeader where
  insertId : Nat
  deriving DecidableEq, Repr

/-- The argument of `transporter.sendMail`. -/
structure MailOptions where
  from_ : Option String
  to_ : Option String
  subject : String
  text : String
  deriving DecidableEq, Repr

/-- A value the handlers put in a response body: a boolean, a text, or the identifier the
store returned. -/
inductive JsonValue where
  | bool (b : Bool)
  | num (n : Int)
  | str (s : String)
  deriving DecidableEq, Repr

/-- A JSON object literal passed to `res.json`, its keys in source order. -/
abbrev JsonObject := List (String × JsonValue)

/-- An observable effect of a handler. -/
inductive Event where
  | execute (sql : String) (values : List JSValue)
  | sendMail (mailOptions : MailOptions)
  | consoleError (label : String) (error : JSError)
  | respond (status : Nat) (json : JsonObject)

/-- The connection pool: `execute(sql, values)` on a store in state `σ` resolves with a
result header or rejects with an error, and leaves the store in a new state. -/
structure Pool (σ : Type) where
  execute : String → List JSValue → σ → Except JSError ResultSetHeader × σ

/-- The mail transporter: `sendMail(mailOptions)` resolves or rejects. -/
structure Transporter (μ : Type) where
  sendMail : MailOptions → μ → Except JSError Unit × μ

/-- The part of `process.env` the handlers read; a variable may be unset. -/
structure Env where
  EMAIL_USER : Option String
  ADMIN_EMAIL : Option String
  deriving DecidableEq, Repr

/-- The state a handler runs in. -/
structure World (σ μ : Type) where
  db : σ
  mailer : μ
  trace : List Event

/-- A handler computation: from a world to a value or a thrown error, and the world after. -/
def Handler (σ μ α : Type) : Type :=
  World σ μ → Except JSError α × World σ μ

namespace Handler

variable {σ μ α β : Type}

/-- A computation that returns `a` and does nothing. -/
def ret (a : α) : Handler σ μ α :=
  fun w => (.ok a, w)

/-- Sequencing: a thrown error skips the rest, the effects so far stay. -/
def andThen (x : Handler σ μ α) (f : α → Handler σ μ β) : Handler σ μ β :=
  fun w =>
    match x w with
    | (.ok a, w1) => f a w1
    | (.error e, w1) => (.error e, w1)

instance : Monad (Handler σ μ) where
  pure := ret
  bind := andThen

/-- The statement `throw e`. -/
def throwJS (e : JSError) : Handler σ μ α :=
  fun w => (.error e, w)

/-- The block `try { body } catch (error) { handler }`. -/
def tryBlock (body : Handler σ μ α) (handler : JSError → Handler σ μ α) : Handler σ μ α :=
  fun w =>
    match body w with
    | (.ok a, w1) => (.ok a, w1)
    | (.error e, w1) => handler e w1

/-- The value of an expression whose evaluation may throw. -/
def evaluate (x : Except JSError α) : Handler σ μ α :=
  fun w => (x, w)

/-- Record an effect in the trace. -/
def emit (e : Event) : Handler σ μ Unit :=
  fun w => (.ok (), { w with trace := w.trace ++ [e] })

/-- The call `await pool.execute(sql, values)`. -/
def poolExecute (pool : Pool σ) (sql : String) (values : List JSValue) :
    Handler σ μ ResultSetHeader :=
  fun w =>
    let r := pool.execute sql values w.db
    (r.1, { w with db := r.2, trace := w.trace ++ [.execute sql values] })

/-- The call `await transporter.sendMail(mailOptions)`. -/
def transporterSendMail (transporter : Transporter μ) (mailOptions : MailOptions) :
    Handler σ μ Unit :=
  fun w =>
    let r := transporter.sendMail mailOptions w.mailer
    (r.1, { w with mailer := r.2, trace := w.trace ++ [.sendMail mailOptions] })

/-- The call `console.error(label, error)`. -/
def consoleError (label : String) (error : JSError) : Handler σ μ Unit :=
  emit (.consoleError label error)

/-- The call `res.status(status).json(json)`. -/
def respond (status : Nat) (json : JsonObject) : Handler σ μ Unit :=
  emit (.respond status json)

end Handler

open Handler

/-! ## The booking endpoint -/

/-- The fields the booking handler destructures from `req.body`. -/
structure BookingBody where
  name : JSValue
  email : JSValue
  contact : JSValue
  arrival : JSValue
  departure : JSValue
  adults : JSValue
  kids : JSValue
  kid_ages : JSValue
  nationality : JSValue

/-- The statement text of the booking INSERT. -/
def bookingSql : String :=
  "INSERT INTO bookings \n      (name, email, contact, arrival, departure, adults, kids, kid_ages, nationality)\n      VALUES (?, ?, ?, ?, ?, ?, ?, ?, ?)"

/-- The bind values of the booking INSERT. -/
def bookingValues (b : BookingBody) : List JSValue :=
  [b.name, b.email, b.contact, b.arrival, b.departure, b.adults, b.kids, b.kid_ages,
    b.nationality]

/-- The text of the template literal once its nine substitutions are converted. -/
def bookingTemplate (name email contact arrival departure adults kids kid_ages
    nationality : String) : String :=
  "\n        New booking received:\n        Name: " ++ name ++
  "\n        Email: " ++ email ++
  "\n        Contact: " ++ contact ++
  "\n        Arrival: " ++ arrival ++
  "\n        Departure: " ++ departure ++
  "\n        Adults: " ++ adults ++
  "\n        Kids: " ++ kids ++
  "\n        Kid Ages: " ++ kid_ages ++
  "\n        Nationality: " ++ nationality ++
  "\n      "

/-- The template literal of the notification text: the substitutions are converted from
left to right, and a conversion that throws ends the evaluation. -/
def bookingText (b : BookingBody) : Except JSError String := do
  let name ← toStr b.name
  let email ← toStr b.email
  let contact ← toStr b.contact
  let arrival ← toStr b.arrival
  let departure ← toStr b.departure
  let adults ← toStr b.adults
  let kids ← toStr b.kids
  let kid_ages ← toStr b.kid_ages
  let nationality ← toStr b.nationality
  pure (bookingTemplate name email contact arrival departure adults kids kid_ages nationality)

/-- The object `mailOptions` of the booking handler, unless the template literal throws. -/
def bookingMailOptions (env : Env) (b : BookingBody) : Except JSError MailOptions := do
  let text ← bookingText b
  pure { from_ := env.EMAIL_USER
         to_ := env.ADMIN_EMAIL
         subject := "New Booking Received"
         text := text }

/-- The JSON body of the booking success response. -/
def bookingSuccessJson (insertId : Nat) : JsonObject :=
  [("success", .bool true),
   ("message", .str "Booking successful and email sent"),
   ("bookingId", .num insertId)]

/-- The JSON body `{ success: false, error: text }`. -/
def failureJson (text : String) : JsonObject :=
  [("success", .bool false), ("error", .str text)]

/-- The handler `app.post('/api/book', ...)`. -/
def book {σ μ : Type} (env : Env) (pool : Pool σ) (transporter : Transporter μ)
    (b : BookingBody) : Handler σ μ Unit :=
  tryBlock
    (do
      let result ← poolExecute pool bookingSql (bookingValues b)
      let mailOptions ← evaluate (bookingMailOptions env b)
      transporterSendMail transporter mailOptions
      respond 200 (bookingSuccessJson result.insertId))
    (fun error => do
      consoleError "Error:" error
      respond 500 (failureJson error.message))

/-! ## The registration endpoint -/

/-- The fields the registration handler destructures from `req.body`. -/
structure RegisterBody where
  name : JSValue
  email : JSValue
  batch : JSValue
  phone : JSValue

/-- The statement text of the registration INSERT. -/
def registerSql : String :=
  "INSERT INTO attendees (name, email, batch, phone) VALUES (?, ?, ?, ?)"

/-- The bind values of the registration INSERT. -/
def registerValues (b : RegisterBody) : List JSValue :=
  [b.name, b.email, b.batch, b.phone]

/-- The JSON body of the registration success response. -/
def registerSuccessJson (insertId : Nat) : JsonObject :=
  [("success", .bool true), ("id", .num insertId)]

/-- The error text of the registration failure response. -/
def registerErrorText (error : JSError) : String :=
  if includes error.message "Duplicate" then "Email already registered" else error.message

/-- The handler `app.post('/api/register', ...)`. -/
def register {σ μ : Type} (pool : Pool σ) (b : RegisterBody) : Handler σ μ Unit :=
  tryBlock
    (do
      if !truthy b.name || !truthy b.email || !truthy b.batch then
        throwJS (newError "Missing required fields")
      let result ← poolExecute pool registerSql (registerValues b)
      respond 201 (registerSuccessJson result.insertId))
    (fun error => do
      consoleError "Registration Error:" error
      respond 500 (failureJson (registerErrorText error)))

/-! ## The error handling middleware -/

/-- The middleware `app.use((err, req, res, next) => ...)`. -/
def errorMiddleware {σ μ : Type} (err : JSError) : Handler σ μ Unit := do
  consoleError "Server Error:" err
  respond 500 (failureJson "Internal server error")

/-! ## Observations on a run -/

/-- The HTTP responses in a trace, in order. -/
def responses : List Event → List (Nat × JsonObject)
  | [] => []
  | .respond status json :: es => (status, json) :: responses es
  | _ :: es => responses es

/-- The mail sends in a trace, in order. -/
def mailSends : List Event → List MailOptions
  | [] => []
  | .sendMail o :: es => o :: mailSends es
  | _ :: es => mailSends es

/-- The store calls in a trace, in order. -/
def storeCalls : List Event → List (String × List JSValue)
  | [] => []
  | .execute sql values :: es => (sql, values) :: storeCalls es
  | _ :: es => storeCalls es

/-- The world a handler leaves behind. -/
def after {σ μ α : Type} (h : Handler σ μ α) (w : World σ μ) : World σ μ :=
  (h w).2

/-- The effects a handler performs when started in `w` with an empty trace. -/
def effects {σ μ α : Type} (h : Handler σ μ α) (w : World σ μ) : List Event :=
  (after h { w with trace := [] }).trace

/-! ## Stores and transports to run the handlers against -/

/-- The error the database driver raises for MySQL error 1062, a duplicate value on the
unique key of the attendees' email column. -/
def duplicateEntry (email : String) : JSError :=
  { name := "Error"
    code := some "ER_DUP_ENTRY"
    message := "Duplicate entry '" ++ email ++ "' for key 'attendees.email'" }

/-- The state of an in-memory store: the rows of the two tables, oldest first. -/
structure MemoryStore where
  bookings : List (List JSValue)
  attendees : List (List JSValue)

/-- The error the database driver raises for a bind value that is `undefined`. -/
def undefinedBindValue : JSError :=
  { name := "TypeError"
    code := none
    message := "Bind parameters must not contain undefined. To pass SQL NULL specify JS null" }

/-- Whether a bind value is `undefined`. -/
def isUndefined : JSValue → Bool
  | .undefined => true
  | _ => false

/-- Whether the email column (the second value) of an attendees row holds the text
`email`. -/
def hasEmail (email : String) (row : List JSValue) : Bool :=
  match row.get? 1 with
  | some (.str e) => e == email
  | _ => false

/-- An in-memory store with the behaviour the handlers expect of the database behind the
driver: a bind value that is `undefined` is rejected; an INSERT appends a row and returns
the next identifier, counted from 1; the attendees' email column (the second bind value) is
unique among texts; any other statement is rejected. -/
def memoryExecute (sql : String) (values : List JSValue) (s : MemoryStore) :
    Except JSError ResultSetHeader × MemoryStore :=
  if values.any isUndefined then
    (.error undefinedBindValue, s)
  else if sql = bookingSql then
    (.ok ⟨s.bookings.length + 1⟩, { s with bookings := s.bookings ++ [values] })
  else if sql = registerSql then
    match values.get? 1 with
    | some (.str email) =>
      if s.attendees.any (hasEmail email) then
        (.error (duplicateEntry email), s)
      else
        (.ok ⟨s.attendees.length + 1⟩, { s with attendees := s.attendees ++ [values] })
    | _ => (.ok ⟨s.attendees.length + 1⟩, { s with attendees := s.attendees ++ [values] })
  else
    (.error { name := "Error", code := some "ER_PARSE_ERROR",
              message := "You have an error in your SQL syntax" }, s)

/-- The pool over the in-memory store. -/
def memoryPool : Pool MemoryStore :=
  { execute := memoryExecute }

/-- A pool whose every call rejects with `e` and leaves the store as it is. -/
def rejectingPool {σ : Type} (e : JSError) : Pool σ :=
  { execute := fun _ _ s => (.error e, s) }

/-- A transporter that delivers every message to an outbox. -/
def outboxTransporter : Transporter (List MailOptions) :=
  { sendMail := fun o m => (.ok (), m ++ [o]) }

/-- A transporter whose every send rejects with `e`. -/
def rejectingTransporter {μ : Type} (e : JSError) : Transporter μ :=
  { sendMail := fun _ m => (.error e, m) }

/-- An empty store, an empty outbox, no effect yet. -/
def emptyWorld : World MemoryStore (List MailOptions) :=
  { db := { bookings := [], attendees := [] }, mailer := [], trace := [] }

/-- A booking submission. -/
def sampleBooking : BookingBody :=
  { name := .str "Ann", email := .str "ann@x.com", contact := .str "0771234567",
    arrival := .str "2024-05-01", departure := .str "2024-05-04",
    adults := .num { isZeroOrNaN := false, text := "2" },
    kids := .num { isZeroOrNaN := false, text := "1" }, kid_ages := .str "7",
    nationality := .str "LK" }

/-- The mail options of the sample booking. -/
def sampleMailOptions : MailOptions :=
  { from_ := some "bookings@travellk.example"
    to_ := some "admin@travellk.example"
    subject := "New Booking Received"
    text := bookingTemplate "Ann" "ann@x.com" "0771234567" "2024-05-01" "2024-05-04" "2" "1"
      "7" "LK" }

/-- The registration submission of the specification's scenario. -/
def sampleRegistration : RegisterBody :=
  { name := .str "A", email := .str "a@x.com", batch := .str "2024", phone := .str "555" }

/-- The process environment of the examples. -/
def sampleEnv : Env :=
  { EMAIL_USER := some "bookings@travellk.example", ADMIN_EMAIL := some "admin@travellk.example" }

/-- A mail transport failure. -/
def smtpFailure : JSError :=
  { name := "Error", code := some "EAUTH", message := "Invalid login" }

/-- A field that is missing from the body, `null`, or the empty text. -/
def absentNullOrEmpty (v : JSValue) : Prop :=
  v = .undefined ∨ v = .null ∨ v = .str ""

/-- A store failure that the database reports as a uniqueness violation: the driver sets
the error `code` to MySQL's `ER_DUP_ENTRY`. -/
def uniquenessViolation (e : JSError) : Prop :=
  e.code = some "ER_DUP_ENTRY"

/-- The error of MySQL error 1366 in strict mode: a text submitted for a numeric column,
the rejected text quoted in the message. -/
def incorrectIntegerValue (value : String) (column : String) : JSError :=
  { name := "Error"
    code := some "ER_TRUNCATED_WRONG_VALUE_FOR_FIELD"
    message := "Incorrect integer value: '" ++ value ++ "' for column '" ++ column ++
      "' at row 1" }

/-- A registration whose batch is the text `Duplicate`. -/
def duplicateBatchRegistration : RegisterBody :=
  { name := .str "A", email := .str "a@x.com", batch := .str "Duplicate", phone := .str "555" }

/-- A registration whose email is the empty text. -/
def emailLessRegistration : RegisterBody :=
  { name := .str "A", email := .str "", batch := .str "2024", phone := .str "555" }

/-- The store after the registration of the specification's scenario. -/
def oneAttendee : MemoryStore :=
  { bookings := [], attendees := [registerValues sampleRegistration] }

/-- The database connection is lost. -/
def connectionLost : JSError :=
  { name := "Error", code := some "PROTOCOL_CONNECTION_LOST",
    message := "Connection lost: The server closed the connection." }

/-- A booking whose name is the object `{"toString": 0}`. -/
def unconvertibleBooking : BookingBody :=
  { sampleBooking with name := .obj [("toString", .num zero)] }

/-- A booking whose nationality is the object `{"c": "LK"}`. -/
def objectBooking : BookingBody :=
  { sampleBooking with nationality := .obj [("c", .str "LK")] }

/-- A registration whose batch is the number `0`. -/
def zeroBatchRegistration : RegisterBody :=
  { name := .str "A", email := .str "a@x.com", batch := .num zero, phone := .str "555" }

/-! ## The handlers, step by step -/

theorem book_store_rejects {σ μ : Type} (env : Env) (pool : Pool σ)
    (transporter : Transporter μ) (b : BookingBody) (w : World σ μ) (e : JSError) (s : σ)
    (hs : pool.execute bookingSql (bookingValues b) w.db = (.error e, s)) :
    book env pool transporter b w =
      (.ok (), { db := s, mailer := w.mailer,
                 trace := w.trace ++ [.execute bookingSql (bookingValues b),
                   .consoleError "Error:" e, .respond 500 (failureJson e.message)] }) := by
  simp [book, tryBlock, bind, andThen, poolExecute, consoleError, respond, emit, hs]

theorem book_text_throws {σ μ : Type} (env : Env) (pool : Pool σ)
    (transporter : Transporter μ) (b : BookingBody) (w : World σ μ) (i : Nat) (s : σ)
    (e : JSError)
    (hs : pool.execute bookingSql (bookingValues b) w.db = (.ok ⟨i⟩, s))
    (ho : bookingMailOptions env b = .error e) :
    book env pool transporter b w =
      (.ok (), { db := s, mailer := w.mailer,
                 trace := w.trace ++ [.execute bookingSql (bookingValues b),
                   .consoleError "Error:" e, .respond 500 (failureJson e.message)] }) := by
  simp [book, tryBlock, bind, andThen, poolExecute, evaluate, consoleError, respond, emit,
    hs, ho]

theorem book_mail_rejects {σ μ : Type} (env : Env) (pool : Pool σ)
    (transporter : Transporter μ) (b : BookingBody) (w : World σ μ) (i : Nat) (s : σ)
    (o : MailOptions) (e : JSError) (m : μ)
    (hs : pool.execute bookingSql (bookingValues b) w.db = (.ok ⟨i⟩, s))
    (ho : bookingMailOptions env b = .ok o)
    (hm : transporter.sendMail o w.mailer = (.error e, m)) :
    book env pool transporter b w =
      (.ok (), { db := s, mailer := m,
                 trace := w.trace ++ [.execute bookingSql (bookingValues b), .sendMail o,
                   .consoleError "Error:" e, .respond 500 (failureJson e.message)] }) := by
  simp [book, tryBlock, bind, andThen, poolExecute, evaluate, transporterSendMail,
    consoleError, respond, emit, hs, ho, hm]

theorem book_all_resolve {σ μ : Type} (env : Env) (pool : Pool σ)
    (transporter : Transporter μ) (b : BookingBody) (w : World σ μ) (i : Nat) (s : σ)
    (o : MailOptions) (m : μ)
    (hs : pool.execute bookingSql (bookingValues b) w.db = (.ok ⟨i⟩, s))
    (ho : bookingMailOptions env b = .ok o)
    (hm : transporter.sendMail o w.mailer = (.ok (), m)) :
    book env pool transporter b w =
      (.ok (), { db := s, mailer := m,
                 trace := w.trace ++ [.execute bookingSql (bookingValues b), .sendMail o,
                   .respond 200 (bookingSuccessJson i)] }) := by
  simp [book, tryBlock, bind, andThen, poolExecute, evaluate, transporterSendMail, respond,
    emit, hs, ho, hm]

theorem register_invalid {σ μ : Type} (pool : Pool σ) (b : RegisterBody) (w : World σ μ)
    (hv : (truthy b.name && truthy b.email && truthy b.batch) = false) :
    register pool b w =
      (.ok (), { w with
                 trace := w.trace ++ [.consoleError "Registration Error:"
                     (newError "Missing required fields"),
                   .respond 500 (failureJson "Missing required fields")] }) := by
  have hc : (!truthy b.name || !truthy b.email || !truthy b.batch) = true := by
    revert hv
    cases truthy b.name <;> cases truthy b.email <;> cases truthy b.batch <;> simp
  have ht : registerErrorText (newError "Missing required fields")
      = "Missing required fields" := by decide
  simp [register, tryBlock, bind, andThen, throwJS, consoleError, respond, emit, hc, ht]

theorem register_store_rejects {σ μ : Type} (pool : Pool σ) (b : RegisterBody)
    (w : World σ μ) (e : JSError) (s : σ)
    (hv : (truthy b.name && truthy b.email && truthy b.batch) = true)
    (hs : pool.execute registerSql (registerValues b) w.db = (.error e, s)) :
    register pool b w =
      (.ok (), { db := s, mailer := w.mailer,
                 trace := w.trace ++ [.execute registerSql (registerValues b),
                   .consoleError "Registration Error:" e,
                   .respond 500 (failureJson (registerErrorText e))] }) := by
  have hc : (!truthy b.name || !truthy b.email || !truthy b.batch) = false := by
    revert hv
    cases truthy b.name <;> cases truthy b.email <;> cases truthy b.batch <;> simp
  simp [register, tryBlock, bind, andThen, pure, ret, poolExecute, consoleError, respond,
    emit, hc, hs]

theorem register_resolves {σ μ : Type} (pool : Pool σ) (b : RegisterBody)
    (w : World σ μ) (i : Nat) (s : σ)
    (hv : (truthy b.name && truthy b.email && truthy b.batch) = true)
    (hs : pool.execute registerSql (registerValues b) w.db = (.ok ⟨i⟩, s)) :
    register pool b w =
      (.ok (), { db := s, mailer := w.mailer,
                 trace := w.trace ++ [.execute registerSql (registerValues b),
                   .respond 201 (registerSuccessJson i)] }) := by
  have hc : (!truthy b.name || !truthy b.email || !truthy b.batch) = false := by
    revert hv
    cases truthy b.name <;> cases truthy b.email <;> cases truthy b.batch <;> simp
  simp [register, tryBlock, bind, andThen, pure, ret, poolExecute, respond, emit, hc, hs]

/-! ## The notification text -/

theorem toStr_str (t : String) : toStr (.str t) = .ok t := rfl

theorem except_bind_eq_ok {α β : Type} (x : Except JSError α) (f : α → Except JSError β)
    (y : β) : (x >>= f) = .ok y ↔ ∃ a, x = .ok a ∧ f a = .ok y := by
  cases x with
  | error e => simp [bind, Except.bind]
  | ok a => simp [bind, Except.bind]

theorem bookingText_eq_ok (b : BookingBody) (t : String) (h : bookingText b = .ok t) :
    ∃ name email contact arrival departure adults kids kid_ages nationality,
      toStr b.name = .ok name ∧ toStr b.email = .ok email ∧ toStr b.contact = .ok contact
      ∧ toStr b.arrival = .ok arrival ∧ toStr b.departure = .ok departure
      ∧ toStr b.adults = .ok adults ∧ toStr b.kids = .ok kids
      ∧ toStr b.kid_ages = .ok kid_ages ∧ toStr b.nationality = .ok nationality
      ∧ t = bookingTemplate name email contact arrival departure adults kids kid_ages
          nationality := by
  unfold bookingText at h
  simp only [except_bind_eq_ok] at h
  obtain ⟨n, hn, e, he, c, hc, a, ha, d, hd, ad, had, k, hk, ka, hka, na, hna, ht⟩ := h
  refine ⟨n, e, c, a, d, ad, k, ka, na, hn, he, hc, ha, hd, had, hk, hka, hna, ?_⟩
  simpa [pure, Except.pure] using ht.symm

theorem bookingText_of_converts (b : BookingBody)
    (h : ∀ v ∈ bookingValues b, ∃ t, toStr v = .ok t) :
    ∃ t, bookingText b = .ok t := by
  obtain ⟨n, hn⟩ := h b.name (by simp [bookingValues])
  obtain ⟨e, he⟩ := h b.email (by simp [bookingValues])
  obtain ⟨c, hc⟩ := h b.contact (by simp [bookingValues])
  obtain ⟨a, ha⟩ := h b.arrival (by simp [bookingValues])
  obtain ⟨d, hd⟩ := h b.departure (by simp [bookingValues])
  obtain ⟨ad, had⟩ := h b.adults (by simp [bookingValues])
  obtain ⟨k, hk⟩ := h b.kids (by simp [bookingValues])
  obtain ⟨ka, hka⟩ := h b.kid_ages (by simp [bookingValues])
  obtain ⟨na, hna⟩ := h b.nationality (by simp [bookingValues])
  exact ⟨bookingTemplate n e c a d ad k ka na, by
    simp [bookingText, hn, he, hc, ha, hd, had, hk, hka, hna, bind, Except.bind, pure,
      Except.pure]⟩

theorem infix_append_right (x t u : String) (h : x.data <:+: t.data) :
    x.data <:+: (t ++ u).data := by
  rw [String.data_append]
  exact List.IsInfix.trans h (List.infix_append' [] t.data u.data)

theorem infix_append_self (t x : String) : x.data <:+: (t ++ x).data := by
  rw [String.data_append]
  exact (List.suffix_append t.data x.data).isInfix

theorem bookingTemplate_contains (name email contact arrival departure adults kids kid_ages
    nationality x : String)
    (hx : x ∈ [name, email, contact, arrival, departure, adults, kids, kid_ages,
      nationality]) :
    x.data <:+: (bookingTemplate name email contact arrival departure adults kids kid_ages
      nationality).data := by
  simp only [List.mem_cons, List.mem_singleton, List.not_mem_nil, or_false] at hx
  unfold bookingTemplate
  rcases hx with h | h | h | h | h | h | h | h | h <;> rw [h] <;>
    repeat (first
      | with_reducible exact infix_append_self _ _
      | with_reducible apply infix_append_right)

theorem bookingText_contains (b : BookingBody) (text : String)
    (h : bookingText b = .ok text) (v : JSValue) (hv : v ∈ bookingValues b) (t : String)
    (ht : toStr v = .ok t) : t.data <:+: text.data := by
  obtain ⟨n, e, c, a, d, ad, k, ka, na, hn, he, hc, ha, hd, had, hk, hka, hna, rfl⟩ :=
    bookingText_eq_ok b text h
  apply bookingTemplate_contains
  simp only [bookingValues, List.mem_cons, List.mem_singleton, List.not_mem_nil, or_false]
    at hv
  rcases hv with h1 | h1 | h1 | h1 | h1 | h1 | h1 | h1 | h1 <;> subst h1
  · rw [hn] at ht; cases ht; simp
  · rw [he] at ht; cases ht; simp
  · rw [hc] at ht; cases ht; simp
  · rw [ha] at ht; cases ht; simp
  · rw [hd] at ht; cases ht; simp
  · rw [had] at ht; cases ht; simp
  · rw [hk] at ht; cases ht; simp
  · rw [hka] at ht; cases ht; simp
  · rw [hna] at ht; cases ht; simp

theorem mailOptions_eq_ok (env : Env) (b : BookingBody) (o : MailOptions)
    (h : bookingMailOptions env b = .ok o) :
    bookingText b = .ok o.text ∧ o.from_ = env.EMAIL_USER ∧ o.to_ = env.ADMIN_EMAIL
      ∧ o.subject = "New Booking Received" := by
  unfold bookingMailOptions at h
  simp only [except_bind_eq_ok] at h
  obtain ⟨t, ht, h2⟩ := h
  simp only [pure, Except.pure, Except.ok.injEq] at h2
  subst h2
  exact ⟨ht, rfl, rfl, rfl⟩

theorem mailOptions_of_text (env : Env) (b : BookingBody) (t : String)
    (h : bookingText b = .ok t) :
    bookingMailOptions env b = .ok (MailOptions.mk env.EMAIL_USER env.ADMIN_EMAIL
      "New Booking Received" t) := by
  simp [bookingMailOptions, h, bind, Except.bind, pure, Except.pure]

/-! ## The booking endpoint: properties -/

/-- C1: when the store insert resolves with identifier `i` and the mail send (of the mail
options `o` the handler builds) resolves, the booking handler answers once, with status 200
and the body `{success: true, message: "Booking successful and email sent", bookingId: i}`. -/
theorem C1_booking_success {σ μ : Type} (env : Env) (pool : Pool σ)
    (transporter : Transporter μ) (b : BookingBody) (w : World σ μ) (i : Nat) (s : σ)
    (o : MailOptions) (m : μ)
    (hs : pool.execute bookingSql (bookingValues b) w.db = (.ok ⟨i⟩, s))
    (ho : bookingMailOptions env b = .ok o)
    (hm : transporter.sendMail o w.mailer = (.ok (), m)) :
    responses (effects (book env pool transporter b) w) =
      [(200, [("success", .bool true),
              ("message", .str "Booking successful and email sent"),
              ("bookingId", .num i)])] := by
  have h := book_all_resolve env pool transporter b { w with trace := [] } i s o m hs ho hm
  simp [effects, after, h, responses, bookingSuccessJson]

/-- C1 at the sample booking, on the in-memory store and the outbox transport. -/
theorem C1_booking_success_witness :
    (memoryPool.execute bookingSql (bookingValues sampleBooking) emptyWorld.db
        = (.ok ⟨1⟩, { bookings := [bookingValues sampleBooking], attendees := [] })
      ∧ bookingMailOptions sampleEnv sampleBooking = .ok sampleMailOptions
      ∧ outboxTransporter.sendMail sampleMailOptions emptyWorld.mailer
          = (.ok (), [sampleMailOptions]))
    ∧ responses (effects (book sampleEnv memoryPool outboxTransporter sampleBooking)
        emptyWorld) =
      [(200, [("success", .bool true),
              ("message", .str "Booking successful and email sent"),
              ("bookingId", .num 1)])] :=
  ⟨⟨rfl, rfl, rfl⟩,
    C1_booking_success sampleEnv memoryPool outboxTransporter sampleBooking emptyWorld 1
      { bookings := [bookingValues sampleBooking], attendees := [] }
      sampleMailOptions [sampleMailOptions] rfl rfl rfl⟩

/-- C2: when the store insert rejects with an error of message `m`, the booking handler
sends no mail (the transport is left untouched) and answers once, with status 500 and the
body `{success: false, error: m}`, `m` being the raw message whatever it contains. -/
theorem C2_booking_store_failure {σ μ : Type} (env : Env) (pool : Pool σ)
    (transporter : Transporter μ) (b : BookingBody) (w : World σ μ) (e : JSError) (s : σ)
    (hs : pool.execute bookingSql (bookingValues b) w.db = (.error e, s)) :
    mailSends (effects (book env pool transporter b) w) = []
      ∧ (after (book env pool transporter b) w).mailer = w.mailer
      ∧ responses (effects (book env pool transporter b) w) =
          [(500, [("success", .bool false), ("error", .str e.message)])] := by
  have h0 := book_store_rejects env pool transporter b { w with trace := [] } e s hs
  have h1 := book_store_rejects env pool transporter b w e s hs
  simp [effects, after, h0, h1, responses, mailSends, failureJson]

/-- C2 at a store that rejects with a message containing `Duplicate`. -/
theorem C2_booking_store_failure_witness :
    (rejectingPool (duplicateEntry "a@x.com")).execute bookingSql
        (bookingValues sampleBooking) emptyWorld.db
        = (.error (duplicateEntry "a@x.com"), emptyWorld.db)
    ∧ mailSends (effects (book sampleEnv (rejectingPool (duplicateEntry "a@x.com"))
        outboxTransporter sampleBooking) emptyWorld) = []
    ∧ (after (book sampleEnv (rejectingPool (duplicateEntry "a@x.com"))
        outboxTransporter sampleBooking) emptyWorld).mailer = emptyWorld.mailer
    ∧ responses (effects (book sampleEnv (rejectingPool (duplicateEntry "a@x.com"))
        outboxTransporter sampleBooking) emptyWorld) =
          [(500, [("success", .bool false),
                  ("error", .str (duplicateEntry "a@x.com").message)])] :=
  ⟨rfl, C2_booking_store_failure sampleEnv (rejectingPool (duplicateEntry "a@x.com"))
    outboxTransporter sampleBooking emptyWorld (duplicateEntry "a@x.com")
    emptyWorld.db rfl⟩

/-- C3: when the store insert resolves, leaving the store in state `s`, and the mail send
(of the mail options `o` the handler builds) rejects with an error of message `m`, the
booking handler answers once, with status 500 and the body `{success: false, error: m}`;
the INSERT is its only store call and the store is left in state `s`, the state right after
the insert. -/
theorem C3_booking_mail_failure {σ μ : Type} (env : Env) (pool : Pool σ)
    (transporter : Transporter μ) (b : BookingBody) (w : World σ μ) (i : Nat) (s : σ)
    (o : MailOptions) (e : JSError) (m : μ)
    (hs : pool.execute bookingSql (bookingValues b) w.db = (.ok ⟨i⟩, s))
    (ho : bookingMailOptions env b = .ok o)
    (hm : transporter.sendMail o w.mailer = (.error e, m)) :
    responses (effects (book env pool transporter b) w) =
        [(500, [("success", .bool false), ("error", .str e.message)])]
      ∧ storeCalls (effects (book env pool transporter b) w) =
          [(bookingSql, bookingValues b)]
      ∧ (after (book env pool transporter b) w).db = s := by
  have h0 := book_mail_rejects env pool transporter b { w with trace := [] } i s o e m hs
    ho hm
  have h1 := book_mail_rejects env pool transporter b w i s o e m hs ho hm
  simp [effects, after, h0, h1, responses, storeCalls, failureJson]

/-- C3 on the in-memory store with a transport that rejects: the booking row is in the
store after the request. -/
theorem C3_booking_mail_failure_witness :
    (memoryPool.execute bookingSql (bookingValues sampleBooking) emptyWorld.db
        = (.ok ⟨1⟩, { bookings := [bookingValues sampleBooking], attendees := [] })
      ∧ bookingMailOptions sampleEnv sampleBooking = .ok sampleMailOptions
      ∧ (rejectingTransporter smtpFailure).sendMail sampleMailOptions emptyWorld.mailer
          = (.error smtpFailure, emptyWorld.mailer))
    ∧ responses (effects (book sampleEnv memoryPool (rejectingTransporter smtpFailure)
        sampleBooking) emptyWorld) =
        [(500, [("success", .bool false), ("error", .str smtpFailure.message)])]
    ∧ storeCalls (effects (book sampleEnv memoryPool (rejectingTransporter smtpFailure)
        sampleBooking) emptyWorld) = [(bookingSql, bookingValues sampleBooking)]
    ∧ (after (book sampleEnv memoryPool (rejectingTransporter smtpFailure) sampleBooking)
        emptyWorld).db = { bookings := [bookingValues sampleBooking], attendees := [] } :=
  ⟨⟨rfl, rfl, rfl⟩,
    C3_booking_mail_failure sampleEnv memoryPool (rejectingTransporter smtpFailure)
      sampleBooking emptyWorld 1
      { bookings := [bookingValues sampleBooking], attendees := [] } sampleMailOptions
      smtpFailure emptyWorld.mailer rfl rfl rfl⟩

/-! ## The registration endpoint: properties -/

theorem truthy_str (t : String) : truthy (.str t) = true ↔ t ≠ "" := by
  simp [truthy]

theorem falsy_of_absentNullOrEmpty {v : JSValue} (h : absentNullOrEmpty v) :
    truthy v = false := by
  rcases h with h | h | h <;> subst h <;> rfl

/-- C4: when at least one of name, email and batch is missing, `null` or the empty text, the
registration handler makes no store call (the store is left as it was) and answers once,
with status 500 and the body `{success: false, error: "Missing required fields"}`. -/
theorem C4_registration_missing_field {σ μ : Type} (pool : Pool σ) (b : RegisterBody)
    (w : World σ μ)
    (h : absentNullOrEmpty b.name ∨ absentNullOrEmpty b.email ∨ absentNullOrEmpty b.batch) :
    storeCalls (effects (@register σ μ pool b) w) = []
      ∧ (after (register pool b) w).db = w.db
      ∧ responses (effects (@register σ μ pool b) w) =
          [(500, [("success", .bool false), ("error", .str "Missing required fields")])] := by
  have hv : (truthy b.name && truthy b.email && truthy b.batch) = false := by
    rcases h with h | h | h <;> simp [falsy_of_absentNullOrEmpty h]
  have h0 := register_invalid pool b { w with trace := [] } hv
  have h1 := register_invalid pool b w hv
  simp [effects, after, h0, h1, responses, storeCalls, failureJson]

/-- C4 at a registration whose email is the empty text, on the in-memory store. -/
theorem C4_registration_missing_field_witness :
    (absentNullOrEmpty emailLessRegistration.name ∨ absentNullOrEmpty emailLessRegistration.email
        ∨ absentNullOrEmpty emailLessRegistration.batch)
    ∧ storeCalls (effects (register memoryPool emailLessRegistration) emptyWorld) = []
    ∧ (after (register memoryPool emailLessRegistration) emptyWorld).db = emptyWorld.db
    ∧ responses (effects (register memoryPool emailLessRegistration) emptyWorld) =
        [(500, [("success", .bool false), ("error", .str "Missing required fields")])] :=
  ⟨Or.inr (Or.inl (Or.inr (Or.inr rfl))),
    C4_registration_missing_field memoryPool emailLessRegistration emptyWorld
      (Or.inr (Or.inl (Or.inr (Or.inr rfl))))⟩

/-- C5: when name, email and batch pass the validation and the store insert rejects with an
error whose message carries the duplicate signal, the text `Duplicate`, the registration
handler answers once, with status 500 and the body
`{success: false, error: "Email already registered"}`, not the store's text. -/
theorem C5_registration_duplicate_email {σ μ : Type} (pool : Pool σ) (b : RegisterBody)
    (w : World σ μ) (e : JSError) (s : σ)
    (hn : truthy b.name = true) (he : truthy b.email = true) (hb : truthy b.batch = true)
    (hs : pool.execute registerSql (registerValues b) w.db = (.error e, s))
    (hd : includes e.message "Duplicate" = true) :
    responses (effects (@register σ μ pool b) w) =
      [(500, [("success", .bool false), ("error", .str "Email already registered")])] := by
  have hv : (truthy b.name && truthy b.email && truthy b.batch) = true := by simp [hn, he, hb]
  have h0 := register_store_rejects pool b { w with trace := [] } e s hv hs
  simp [effects, after, h0, responses, failureJson, registerErrorText, hd]

/-- C5 on the in-memory store that already holds the email: the second identical
submission of the specification's scenario. -/
theorem C5_registration_duplicate_email_witness :
    (truthy sampleRegistration.name = true ∧ truthy sampleRegistration.email = true
      ∧ truthy sampleRegistration.batch = true
      ∧ memoryPool.execute registerSql (registerValues sampleRegistration) oneAttendee
          = (.error (duplicateEntry "a@x.com"), oneAttendee)
      ∧ includes (duplicateEntry "a@x.com").message "Duplicate" = true)
    ∧ responses (effects (register memoryPool sampleRegistration)
        ({ db := oneAttendee, mailer := [], trace := [] } : World MemoryStore (List MailOptions)))
        = [(500, [("success", .bool false), ("error", .str "Email already registered")])] :=
  ⟨⟨by decide, by decide, by decide, rfl, by decide⟩,
    C5_registration_duplicate_email memoryPool sampleRegistration
      { db := oneAttendee, mailer := [], trace := [] } (duplicateEntry "a@x.com")
      oneAttendee (by decide) (by decide) (by decide) rfl (by decide)⟩

/-- C6, as stated, fails: a registration whose name, email and batch are all present, not
`null` and not the empty text, the batch being the number `0`, makes no store call and is
answered with status 500 and `Missing required fields`, because `!batch` holds for `0`. -/
theorem C6_nonempty_counterexample :
    ¬ absentNullOrEmpty zeroBatchRegistration.name
    ∧ ¬ absentNullOrEmpty zeroBatchRegistration.email
    ∧ ¬ absentNullOrEmpty zeroBatchRegistration.batch
    ∧ storeCalls (effects (register memoryPool zeroBatchRegistration) emptyWorld) = []
    ∧ responses (effects (register memoryPool zeroBatchRegistration) emptyWorld) =
        [(500, [("success", .bool false), ("error", .str "Missing required fields")])] := by
  refine ⟨?_, ?_, ?_, rfl, by decide⟩
  · simp [absentNullOrEmpty, zeroBatchRegistration]
  · simp [absentNullOrEmpty, zeroBatchRegistration]
  · simp [absentNullOrEmpty, zeroBatchRegistration]

/-- C6, amended: when name, email and batch are truthy, that is, pass the handler's test
`!name || !email || !batch` (every non-empty text does; `0`, `false`, `null`, an absent value
and the empty text do not), then whatever the phone, absent included, the registration
handler makes exactly one store call, the INSERT with the values
`[name, email, batch, phone]` in this order, and if it resolves with identifier `i` the
handler answers once, with status 201 and the body `{success: true, id: i}`. -/
theorem C6_registration_success {σ μ : Type} (pool : Pool σ)
    (name email batch phone : JSValue) (w : World σ μ)
    (hn : truthy name = true) (he : truthy email = true) (hb : truthy batch = true) :
    storeCalls (effects (@register σ μ pool ⟨name, email, batch, phone⟩) w) =
        [("INSERT INTO attendees (name, email, batch, phone) VALUES (?, ?, ?, ?)",
          [name, email, batch, phone])]
      ∧ ∀ (i : Nat) (s : σ),
          pool.execute registerSql [name, email, batch, phone] w.db = (.ok ⟨i⟩, s) →
          responses (effects (@register σ μ pool ⟨name, email, batch, phone⟩) w) =
            [(201, [("success", .bool true), ("id", .num i)])] := by
  have hv : (truthy (RegisterBody.mk name email batch phone).name
      && truthy (RegisterBody.mk name email batch phone).email
      && truthy (RegisterBody.mk name email batch phone).batch) = true := by
    simp [hn, he, hb]
  constructor
  · rcases hx : pool.execute registerSql (registerValues ⟨name, email, batch, phone⟩) w.db
      with ⟨r, s⟩
    cases r with
    | error e =>
      have h0 := register_store_rejects pool ⟨name, email, batch, phone⟩
        { w with trace := [] } e s hv hx
      simp [effects, after, h0, storeCalls, registerValues, registerSql]
    | ok r =>
      have h0 := register_resolves pool ⟨name, email, batch, phone⟩
        { w with trace := [] } r.insertId s hv hx
      simp [effects, after, h0, storeCalls, registerValues, registerSql]
  · intro i s hx
    have h0 := register_resolves pool ⟨name, email, batch, phone⟩
      { w with trace := [] } i s hv hx
    simp [effects, after, h0, responses, registerSuccessJson]

/-- C6, amended, at the registration of the specification's scenario, on the empty
in-memory store. -/
theorem C6_registration_success_witness :
    (truthy (.str "A") = true ∧ truthy (.str "a@x.com") = true
      ∧ truthy (.str "2024") = true)
    ∧ storeCalls (effects (register memoryPool
        ⟨.str "A", .str "a@x.com", .str "2024", .str "555"⟩) emptyWorld) =
        [("INSERT INTO attendees (name, email, batch, phone) VALUES (?, ?, ?, ?)",
          [.str "A", .str "a@x.com", .str "2024", .str "555"])]
    ∧ responses (effects (register memoryPool
        ⟨.str "A", .str "a@x.com", .str "2024", .str "555"⟩) emptyWorld) =
        [(201, [("success", .bool true), ("id", .num 1)])] :=
  ⟨⟨by decide, by decide, by decide⟩,
    (C6_registration_success memoryPool (.str "A") (.str "a@x.com") (.str "2024") (.str "555")
      emptyWorld (by decide) (by decide) (by decide)).1,
    (C6_registration_success memoryPool (.str "A") (.str "a@x.com") (.str "2024") (.str "555")
      emptyWorld (by decide) (by decide) (by decide)).2 1
      { bookings := [], attendees := [[.str "A", .str "a@x.com", .str "2024", .str "555"]] }
      rfl⟩

/-- C7, as stated, fails: a store failure that is not a uniqueness violation (MySQL error
1366, whose message quotes the submitted batch `Duplicate`) is answered with
`Email already registered`, not with its raw message. -/
theorem C7_raw_message_counterexample :
    ¬ uniquenessViolation (incorrectIntegerValue "Duplicate" "batch")
    ∧ (rejectingPool (incorrectIntegerValue "Duplicate" "batch")).execute registerSql
        (registerValues duplicateBatchRegistration) emptyWorld.db
        = (.error (incorrectIntegerValue "Duplicate" "batch"), emptyWorld.db)
    ∧ responses (effects (register
        (rejectingPool (incorrectIntegerValue "Duplicate" "batch"))
        duplicateBatchRegistration) emptyWorld)
        = [(500, [("success", .bool false), ("error", .str "Email already registered")])]
    ∧ responses (effects (register
        (rejectingPool (incorrectIntegerValue "Duplicate" "batch"))
        duplicateBatchRegistration) emptyWorld)
        ≠ [(500, [("success", .bool false),
              ("error", .str (incorrectIntegerValue "Duplicate" "batch").message)])] := by
  refine ⟨?_, rfl, by decide, by decide⟩
  simp [uniquenessViolation, incorrectIntegerValue]

/-- C7, amended: a validation failure is answered with status 500 and the body
`{success: false, error: "Missing required fields"}`, the raw message of the error thrown;
a store failure whose message `m` does not contain the text `Duplicate` is answered with
status 500 and the body `{success: false, error: m}`, `m` unchanged. -/
theorem C7_registration_raw_message {σ μ : Type} (pool : Pool σ) (b : RegisterBody)
    (w : World σ μ) :
    ((truthy b.name && truthy b.email && truthy b.batch) = false →
        responses (effects (@register σ μ pool b) w) =
          [(500, [("success", .bool false),
                  ("error", .str (newError "Missing required fields").message)])])
      ∧ ∀ (e : JSError) (s : σ),
          (truthy b.name && truthy b.email && truthy b.batch) = true →
          pool.execute registerSql (registerValues b) w.db = (.error e, s) →
          includes e.message "Duplicate" = false →
          responses (effects (@register σ μ pool b) w) =
            [(500, [("success", .bool false), ("error", .str e.message)])] := by
  constructor
  · intro hv
    have h0 := register_invalid pool b { w with trace := [] } hv
    simp [effects, after, h0, responses, failureJson, newError]
  · intro e s hv hs hd
    have h0 := register_store_rejects pool b { w with trace := [] } e s hv hs
    simp [effects, after, h0, responses, failureJson, registerErrorText, hd]

/-- C7, amended, at a lost database connection. -/
theorem C7_registration_raw_message_witness :
    ((truthy sampleRegistration.name && truthy sampleRegistration.email
        && truthy sampleRegistration.batch) = true
      ∧ (rejectingPool connectionLost).execute registerSql
          (registerValues sampleRegistration) emptyWorld.db
          = (.error connectionLost, emptyWorld.db)
      ∧ includes connectionLost.message "Duplicate" = false)
    ∧ responses (effects (register (rejectingPool connectionLost) sampleRegistration)
        emptyWorld) =
        [(500, [("success", .bool false),
                ("error", .str "Connection lost: The server closed the connection.")])] :=
  ⟨⟨by decide, rfl, by decide⟩,
    (C7_registration_raw_message (rejectingPool connectionLost) sampleRegistration
      emptyWorld).2 connectionLost emptyWorld.db (by decide) rfl (by decide)⟩

/-! ## The error handling middleware: properties -/

/-- C8: whatever error the fallback middleware receives, it answers once, with status 500
and the body `{success: false, error: "Internal server error"}`; the answer is the same for
any two errors, so it carries nothing of the error it received. -/
theorem C8_middleware_generic_response {σ μ : Type} (err err2 : JSError) (w : World σ μ) :
    responses (effects (errorMiddleware err) w) =
        [(500, [("success", .bool false), ("error", .str "Internal server error")])]
      ∧ responses (effects (errorMiddleware err) w) =
          responses (effects (errorMiddleware err2) w) := by
  simp [effects, after, errorMiddleware, bind, andThen, consoleError, respond, emit,
    responses, failureJson]

/-! ## The booking notification: properties -/

set_option maxRecDepth 20000 in
/-- C9, as stated, fails.  For the name `{"toString": 0}` the insert resolves and the row is
stored, but the template literal throws, no mail is sent and the answer is status 500 with
the message of the TypeError.  For the nationality `{"c": "LK"}` the mail is sent with
`[object Object]` in the place of the value, and the text `LK` is nowhere in it. -/
theorem C9_notification_counterexample :
    memoryPool.execute bookingSql (bookingValues unconvertibleBooking) emptyWorld.db
        = (.ok ⟨1⟩, { bookings := [bookingValues unconvertibleBooking], attendees := [] })
    ∧ mailSends (effects (book sampleEnv memoryPool outboxTransporter unconvertibleBooking)
        emptyWorld) = []
    ∧ responses (effects (book sampleEnv memoryPool outboxTransporter unconvertibleBooking)
        emptyWorld) =
        [(500, [("success", .bool false),
                ("error", .str "Cannot convert object to primitive value")])]
    ∧ mailSends (effects (book sampleEnv memoryPool outboxTransporter objectBooking)
        emptyWorld) =
        [{ sampleMailOptions with
            text := bookingTemplate "Ann" "ann@x.com" "0771234567" "2024-05-01" "2024-05-04"
              "2" "1" "7" "[object Object]" }]
    ∧ includes (bookingTemplate "Ann" "ann@x.com" "0771234567" "2024-05-01" "2024-05-04"
        "2" "1" "7" "[object Object]") "LK" = false := by
  refine ⟨rfl, rfl, by decide, rfl, rfl⟩

/-- C9, amended: when the store insert resolves and each of the nine submitted values
converts to a string (the conversion throws only for an object with an own `toString`
property, alone or inside an array), the booking handler performs exactly one mail send,
right after the INSERT and before any response; the message has the configured mail account
as sender, the configured admin address as recipient, the subject `New Booking Received`,
and a text in which the string conversion of each of the nine values occurs, which for a
text value is the value itself, character for character. -/
theorem C9_booking_notification {σ μ : Type} (env : Env) (pool : Pool σ)
    (transporter : Transporter μ) (b : BookingBody) (w : World σ μ) (i : Nat) (s : σ)
    (hs : pool.execute bookingSql (bookingValues b) w.db = (.ok ⟨i⟩, s))
    (hc : ∀ v ∈ [b.name, b.email, b.contact, b.arrival, b.departure, b.adults, b.kids,
        b.kid_ages, b.nationality], ∃ t, toStr v = .ok t) :
    ∃ (o : MailOptions) (rest : List Event),
      effects (book env pool transporter b) w =
          .execute bookingSql (bookingValues b) :: .sendMail o :: rest
        ∧ mailSends rest = []
        ∧ mailSends (effects (book env pool transporter b) w) = [o]
        ∧ o.from_ = env.EMAIL_USER
        ∧ o.to_ = env.ADMIN_EMAIL
        ∧ o.subject = "New Booking Received"
        ∧ (∀ v ∈ [b.name, b.email, b.contact, b.arrival, b.departure, b.adults, b.kids,
              b.kid_ages, b.nationality], ∀ t, toStr v = .ok t → t.data <:+: o.text.data)
        ∧ (∀ t : String, JSValue.str t ∈ [b.name, b.email, b.contact, b.arrival,
              b.departure, b.adults, b.kids, b.kid_ages, b.nationality] →
              t.data <:+: o.text.data) := by
  obtain ⟨text, htext⟩ := bookingText_of_converts b hc
  have ho := mailOptions_of_text env b text htext
  have hin : ∀ v ∈ bookingValues b, ∀ t, toStr v = .ok t → t.data <:+: text.data :=
    fun v hv t ht => bookingText_contains b text htext v hv t ht
  have hstr : ∀ t : String, JSValue.str t ∈ bookingValues b → t.data <:+: text.data :=
    fun t h => hin (.str t) h t rfl
  rcases hx : transporter.sendMail (MailOptions.mk env.EMAIL_USER env.ADMIN_EMAIL
    "New Booking Received" text) w.mailer with ⟨r, m⟩
  cases r with
  | error e =>
    have h0 := book_mail_rejects env pool transporter b { w with trace := [] } i s _ e m hs
      ho hx
    refine ⟨MailOptions.mk env.EMAIL_USER env.ADMIN_EMAIL "New Booking Received" text,
      [.consoleError "Error:" e, .respond 500 (failureJson e.message)], ?_, rfl, ?_,
      rfl, rfl, rfl, hin, hstr⟩
    · simp [effects, after, h0]
    · simp [effects, after, h0, mailSends]
  | ok u =>
    have h0 := book_all_resolve env pool transporter b { w with trace := [] } i s _ m hs
      ho hx
    refine ⟨MailOptions.mk env.EMAIL_USER env.ADMIN_EMAIL "New Booking Received" text,
      [.respond 200 (bookingSuccessJson i)], ?_, rfl, ?_, rfl, rfl, rfl, hin, hstr⟩
    · simp [effects, after, h0]
    · simp [effects, after, h0, mailSends]

theorem sampleBooking_converts :
    ∀ v ∈ [sampleBooking.name, sampleBooking.email, sampleBooking.contact,
      sampleBooking.arrival, sampleBooking.departure, sampleBooking.adults,
      sampleBooking.kids, sampleBooking.kid_ages, sampleBooking.nationality],
      ∃ t, toStr v = .ok t := by
  intro v hv
  simp only [List.mem_cons, List.mem_singleton, List.not_mem_nil, or_false] at hv
  rcases hv with h | h | h | h | h | h | h | h | h <;> subst h <;> exact ⟨_, rfl⟩

/-- C9, amended, at the sample booking, on the in-memory store and the outbox transport. -/
theorem C9_booking_notification_witness :
    (memoryPool.execute bookingSql (bookingValues sampleBooking) emptyWorld.db
        = (.ok ⟨1⟩, { bookings := [bookingValues sampleBooking], attendees := [] })
      ∧ ∀ v ∈ [sampleBooking.name, sampleBooking.email, sampleBooking.contact,
          sampleBooking.arrival, sampleBooking.departure, sampleBooking.adults,
          sampleBooking.kids, sampleBooking.kid_ages, sampleBooking.nationality],
          ∃ t, toStr v = .ok t)
    ∧ ∃ (o : MailOptions) (rest : List Event),
      effects (book sampleEnv memoryPool outboxTransporter sampleBooking) emptyWorld =
          .execute bookingSql (bookingValues sampleBooking) :: .sendMail o :: rest
        ∧ mailSends rest = []
        ∧ mailSends (effects (book sampleEnv memoryPool outboxTransporter sampleBooking)
            emptyWorld) = [o]
        ∧ o.from_ = sampleEnv.EMAIL_USER
        ∧ o.to_ = sampleEnv.ADMIN_EMAIL
        ∧ o.subject = "New Booking Received"
        ∧ (∀ v ∈ [sampleBooking.name, sampleBooking.email, sampleBooking.contact,
              sampleBooking.arrival, sampleBooking.departure, sampleBooking.adults,
              sampleBooking.kids, sampleBooking.kid_ages, sampleBooking.nationality],
              ∀ t, toStr v = .ok t → t.data <:+: o.text.data)
        ∧ (∀ t : String, JSValue.str t ∈ [sampleBooking.name, sampleBooking.email,
              sampleBooking.contact, sampleBooking.arrival, sampleBooking.departure,
              sampleBooking.adults, sampleBooking.kids, sampleBooking.kid_ages,
              sampleBooking.nationality] → t.data <:+: o.text.data) :=
  ⟨⟨rfl, sampleBooking_converts⟩,
    C9_booking_notification sampleEnv memoryPool outboxTransporter sampleBooking
      emptyWorld 1 { bookings := [bookingValues sampleBooking], attendees := [] } rfl
      sampleBooking_converts⟩

/-! ## Both endpoints: one response, success or failure -/

/-- C10: whatever the payload and whatever the store and the mail transport do, each
handler answers exactly once.  The booking answer is either status 200 with `success: true`
or status 500 with `success: false`, and it is the former exactly when the store insert
resolves, the mail options are built and the mail send resolves.  The registration answer
is either status 201 with `success: true` or status 500 with `success: false`, and it is the
former exactly when the validation passes and the store insert resolves. -/
theorem C10_single_response {σ μ : Type} (env : Env) (pool : Pool σ)
    (transporter : Transporter μ) (b : BookingBody) (r : RegisterBody) (w : World σ μ) :
    (∃ (status : Nat) (json : JsonObject),
        responses (effects (book env pool transporter b) w) = [(status, json)]
        ∧ ((status = 200 ∧ json.lookup "success" = some (.bool true))
            ∨ (status = 500 ∧ json.lookup "success" = some (.bool false)))
        ∧ (status = 200 ↔
            (∃ (h : ResultSetHeader) (s : σ),
                pool.execute bookingSql (bookingValues b) w.db = (.ok h, s))
            ∧ ∃ (o : MailOptions) (m : μ), bookingMailOptions env b = .ok o
                ∧ transporter.sendMail o w.mailer = (.ok (), m)))
    ∧ (∃ (status : Nat) (json : JsonObject),
        responses (effects (@register σ μ pool r) w) = [(status, json)]
        ∧ ((status = 201 ∧ json.lookup "success" = some (.bool true))
            ∨ (status = 500 ∧ json.lookup "success" = some (.bool false)))
        ∧ (status = 201 ↔
            (truthy r.name = true ∧ truthy r.email = true ∧ truthy r.batch = true)
            ∧ ∃ (h : ResultSetHeader) (s : σ),
                pool.execute registerSql (registerValues r) w.db = (.ok h, s))) := by
  constructor
  · rcases hx : pool.execute bookingSql (bookingValues b) w.db with ⟨x, s⟩
    cases x with
    | error e =>
      have h0 := book_store_rejects env pool transporter b { w with trace := [] } e s hx
      refine ⟨500, failureJson e.message, ?_,
        Or.inr ⟨rfl, by simp [failureJson, List.lookup]⟩, ?_⟩
      · simp [effects, after, h0, responses]
      · simp
    | ok h =>
      cases ho : bookingMailOptions env b with
      | error e =>
        have h0 := book_text_throws env pool transporter b { w with trace := [] }
          h.insertId s e hx ho
        refine ⟨500, failureJson e.message, ?_,
          Or.inr ⟨rfl, by simp [failureJson, List.lookup]⟩, ?_⟩
        · simp [effects, after, h0, responses]
        · simp
      | ok o =>
        rcases hy : transporter.sendMail o w.mailer with ⟨y, m⟩
        cases y with
        | error e =>
          have h0 := book_mail_rejects env pool transporter b { w with trace := [] }
            h.insertId s o e m hx ho hy
          refine ⟨500, failureJson e.message, ?_,
            Or.inr ⟨rfl, by simp [failureJson, List.lookup]⟩, ?_⟩
          · simp [effects, after, h0, responses]
          · simp [hy]
        | ok u =>
          have h0 := book_all_resolve env pool transporter b { w with trace := [] }
            h.insertId s o m hx ho hy
          refine ⟨200, bookingSuccessJson h.insertId, ?_,
            Or.inl ⟨rfl, by simp [bookingSuccessJson, List.lookup]⟩, ?_⟩
          · simp [effects, after, h0, responses]
          · simp [hy]
  · cases hv : (truthy r.name && truthy r.email && truthy r.batch) with
    | false =>
      have h0 := register_invalid pool r { w with trace := [] } hv
      refine ⟨500, failureJson "Missing required fields", ?_,
        Or.inr ⟨rfl, by simp [failureJson, List.lookup]⟩, ?_⟩
      · simp [effects, after, h0, responses]
      · simp only [Bool.and_eq_false_iff] at hv
        constructor
        · intro h
          exact absurd h (by decide)
        · rintro ⟨⟨h1, h2, h3⟩, _⟩
          simp [h1, h2, h3] at hv
    | true =>
      have hv3 : truthy r.name = true ∧ truthy r.email = true ∧ truthy r.batch = true := by
        simpa [Bool.and_eq_true, and_assoc] using hv
      rcases hx : pool.execute registerSql (registerValues r) w.db with ⟨x, s⟩
      cases x with
      | error e =>
        have h0 := register_store_rejects pool r { w with trace := [] } e s hv hx
        refine ⟨500, failureJson (registerErrorText e), ?_,
          Or.inr ⟨rfl, by simp [failureJson, List.lookup]⟩, ?_⟩
        · simp [effects, after, h0, responses]
        · simp
      | ok h =>
        have h0 := register_resolves pool r { w with trace := [] } h.insertId s hv hx
        refine ⟨201, registerSuccessJson h.insertId, ?_,
          Or.inl ⟨rfl, by simp [registerSuccessJson, List.lookup]⟩, ?_⟩
        · simp [effects, after, h0, responses]
        · simp [hv3]

/-! ## The scenario of the specification -/

theorem scenario_register_twice :
    responses (effects (register memoryPool sampleRegistration) emptyWorld)
        = [(201, [("success", .bool true), ("id", .num 1)])]
    ∧ (after (register memoryPool sampleRegistration) emptyWorld).db = oneAttendee
    ∧ responses (effects (register memoryPool sampleRegistration)
        (after (register memoryPool sampleRegistration) emptyWorld))
        = [(500, [("success", .bool false), ("error", .str "Email already registered")])] := by
  refine ⟨by decide, rfl, by decide⟩

theorem scenario_register_without_phone :
    responses (effects (register memoryPool
        ⟨.str "A", .str "a@x.com", .str "2024", .undefined⟩) emptyWorld)
      = [(500, [("success", .bool false), ("error", .str undefinedBindValue.message)])]
    ∧ (after (register memoryPool ⟨.str "A", .str "a@x.com", .str "2024", .undefined⟩)
        emptyWorld).db = emptyWorld.db := by
  refine ⟨by decide, rfl⟩

end Travellk
